import Mathlib

/-!
# Verification of the GG (Gestor de Gastos) transaction extractor and orchestrator

Shallow embedding of `main.py`: the email parser `parse_banco_chile_email`,
the request orchestrator `parse_email`, and the read path `get_expenses`.

Modelling conventions:
* Python strings are Lean `String`s / `List Char`.
* The regular expressions of the source are embedded as executable scanners
  with Python's leftmost-match, lazy/greedy semantics specialised to each
  concrete pattern.
* `\d` and `\s` are modelled over the ASCII/Latin-1 range that the bank
  emails use; `str.lower` / `str.capitalize` are modelled on ASCII A-Z plus
  the Latin-1 accented block (covering `é`, `É` in "Crédito"/"Débito"),
  with the multi-character lowercase expansion of dotted `İ` (U+0130) and,
  for `re.IGNORECASE` matching, the sre case equivalences that let dotless
  `ı` (U+0131) and dotted `İ` stand for the pattern letter `i`.
* Python `float` applied to the digit string left after stripping `$`, `.`
  and `,` is modelled as exact integer parsing (the source only ever feeds
  it decimal-digit strings); `float('')` raising ValueError is modelled by
  `Except`.
* The caught-exception structure of the source is kept: `pyFloat` is
  `Except`-valued and the `try/except ValueError` of lines 431-434 handles
  its error; `parse_banco_chile_emailE` keeps the exception explicit to
  state that the parser never raises.
* The Google-Sheets collaborator is a parameter: `SheetOutcome` is what the
  single `write_to_sheet` call would do (return a result dict or raise) and
  `parse_email` also returns the list of append calls actually issued, so
  "the collaborator is never invoked" is the statement that this list is
  empty.
-/

namespace GG

/-! ## Character-level modelling of Python's `str` operations -/

/-- Python's `\s` / `str.strip` whitespace, restricted to the ASCII and
Latin-1 whitespace characters. -/
def isSpaceChar (c : Char) : Bool :=
  c = ' ' || c = '\t' || c = '\n' || c = '\r' || c = '\x0b' || c = '\x0c' ||
  c = '\x1c' || c = '\x1d' || c = '\x1e' || c = '\x1f' || c = '\x85' || c = '\xa0'

/-- `str.lower` on one character: ASCII `A`-`Z` and the Latin-1 uppercase
block `À`-`Þ` (excluding `×`) map down by 32; anything else is unchanged. -/
def pyLower (c : Char) : Char :=
  if 65 ≤ c.toNat ∧ c.toNat ≤ 90 then Char.ofNat (c.toNat + 32)
  else if 192 ≤ c.toNat ∧ c.toNat ≤ 222 ∧ c.toNat ≠ 215 then Char.ofNat (c.toNat + 32)
  else c

/-- The uppercase counterpart used by `str.capitalize` on the first
character: ASCII `a`-`z` and Latin-1 `à`-`þ` (excluding `÷`) map up by 32. -/
def pyUpper (c : Char) : Char :=
  if 97 ≤ c.toNat ∧ c.toNat ≤ 122 then Char.ofNat (c.toNat - 32)
  else if 224 ≤ c.toNat ∧ c.toNat ≤ 254 ∧ c.toNat ≠ 247 then Char.ofNat (c.toNat - 32)
  else c

/-- Case folding performed by `re.IGNORECASE` matching for the characters
of the patterns in this source: besides the `pyLower` case pairs, the sre
case equivalences make dotless `ı` (U+0131) and dotted `İ` (U+0130) match
`i` (the other pattern letters have no extra equivalents). -/
def reFold (c : Char) : Char :=
  if c = 'ı' || c = 'İ' then 'i' else pyLower c

/-- Full lowercase mapping of one character as used by `str.lower` /
`str.capitalize`: dotted `İ` (U+0130) expands to `i` followed by a
combining dot above (U+0307); every other character of our range maps to
its single `pyLower` image. -/
def pyLowerMulti (c : Char) : List Char :=
  if c = 'İ' then ['i', '\u0307'] else [pyLower c]

/-- `str.lower` on a character list, with the multi-character mapping of
`İ`. -/
def pyLowerStr : List Char → List Char
  | [] => []
  | c :: t => pyLowerMulti c ++ pyLowerStr t

/-- `str.capitalize`: first character uppercased, the rest lowercased
(with the full, possibly length-changing, lowercase mapping). -/
def pyCapitalize : List Char → List Char
  | [] => []
  | c :: rest => pyUpper c :: pyLowerStr rest

/-- `str.strip()`: drop whitespace from both ends. -/
def pyStrip (l : List Char) : List Char :=
  ((l.dropWhile isSpaceChar).reverse.dropWhile isSpaceChar).reverse

/-- `pat` occurs at the start of `l` (the anchored part of Python's
`needle in haystack`). -/
def startsWith : List Char → List Char → Bool
  | _, [] => true
  | [], _ :: _ => false
  | c :: t, p :: q => c = p && startsWith t q

/-- Python's substring test `pat in l`. -/
def hasSub (l pat : List Char) : Bool :=
  match l with
  | [] => pat.isEmpty
  | _ :: t => startsWith l pat || hasSub t pat

/-! ## Python `float` on the stripped amount string -/

/-- Value of an ASCII decimal digit character. -/
def digitVal (c : Char) : Nat := c.toNat - 48

/-- Value of a decimal digit string. -/
def digitsVal (l : List Char) : Nat :=
  l.foldl (fun a c => a * 10 + digitVal c) 0

/-- Python `float(s)` restricted to the strings the parser feeds it
(decimal-digit strings): raises `ValueError` on the empty string or any
non-digit character, otherwise returns the (exact, non-negative) value. -/
def pyFloat (l : List Char) : Except String Int :=
  if l.isEmpty || !(l.all Char.isDigit) then Except.error "ValueError"
  else Except.ok (digitsVal l : Nat)

/-! ## The amount regex `\$[\d\.,]+` (main.py line 427) -/

/-- The character class `[\d\.,]`. -/
def isAmtChar (c : Char) : Bool := c.isDigit || c = '.' || c = ','

/-- `re.search(r'\$[\d\.,]+', body)`: leftmost `$` followed by a non-empty
greedy run of amount characters; returns the run after the `$` (the part of
the match the source keeps after `.replace('$','')`). -/
def findAmountRun : List Char → Option (List Char)
  | [] => none
  | c :: rest =>
      if c = '$' && !(rest.takeWhile isAmtChar).isEmpty then
        some (rest.takeWhile isAmtChar)
      else findAmountRun rest

/-- Spec-side description of a currency-amount match position: a match of
`\$[\d\.,]+` starts at index `i` of `l` iff the character there is `$` and
at least one digit/dot/comma character follows. -/
def currencyTokenAt (l : List Char) (i : Nat) : Bool :=
  match l.drop i with
  | [] => false
  | c :: rest => c = '$' && !(rest.takeWhile isAmtChar).isEmpty

/-- Spec-side amount computation at match position `i`: take the matched
token (the maximal run of digit/dot/comma characters after the `$`), strip
the grouping separators, parse as a number, with `0` on parse failure. -/
def specAmountAt (l : List Char) (i : Nat) : Int :=
  let token := (l.drop (i + 1)).takeWhile isAmtChar
  let digits := token.filter fun c => !(c = '.' || c = ',')
  match pyFloat digits with
  | Except.ok v => v
  | Except.error _ => 0

/-! ## The merchant regex `en ([^\r\n]+?)\s+el\s+\d` (main.py lines 446, 454) -/

/-- `\s+el\s+\d` anchored at the start of `l`.  Both `\s+` runs are
followed by a non-space character in the pattern, so each must consume an
entire maximal whitespace run. -/
def matchSpElSpD (l : List Char) : Bool :=
  let w := l.takeWhile isSpaceChar
  let r := l.dropWhile isSpaceChar
  !w.isEmpty &&
    (match r with
     | 'e' :: 'l' :: r2 =>
         let w2 := r2.takeWhile isSpaceChar
         let r3 := r2.dropWhile isSpaceChar
         !w2.isEmpty && (match r3 with
                         | c :: _ => c.isDigit
                         | [] => false)
     | _ => false)

/-- The lazy group `([^\r\n]+?)` followed by `\s+el\s+\d`: growing the
non-empty capture one character at a time (smallest first), failing if the
capture would have to cross `\r`/`\n` or the end of input. -/
def capLoop : List Char → List Char → Option (List Char)
  | [], _ => none
  | c :: rest, acc =>
      if c = '\r' || c = '\n' then none
      else if matchSpElSpD rest then some (acc ++ [c])
      else capLoop rest (acc ++ [c])

/-- `re.search(r'en ([^\r\n]+?)\s+el\s+\d', body)`: leftmost start position
whose full pattern succeeds; returns group 1. -/
def findMerchant : List Char → Option (List Char)
  | [] => none
  | c :: rest =>
      if c = 'e' ∧ rest.take 2 = ['n', ' '] then
        match capLoop (rest.drop 2) [] with
        | some cap => some cap
        | none => findMerchant rest
      else findMerchant rest

/-! ## The fallback card-type regex `Tarjeta de (Crédito|Débito)`, IGNORECASE
(main.py line 460) -/

/-- `re.search(r'Tarjeta de (Crédito|Débito)', body, re.IGNORECASE)`:
leftmost position where the case-folded text starts with one of the two
alternatives ("tarjeta de " is 11 characters; the captured group is the 7
characters matching "crédito" or the 6 matching "débito", in the original
casing).  The fold is `reFold`, so dotless `ı` and dotted `İ` match the
pattern letter `i`, as under `re.IGNORECASE`. -/
def findCardType : List Char → Option (List Char)
  | [] => none
  | c :: rest =>
      if startsWith ((c :: rest).map reFold) "tarjeta de crédito".data then
        some (((c :: rest).drop 11).take 7)
      else if startsWith ((c :: rest).map reFold) "tarjeta de débito".data then
        some (((c :: rest).drop 11).take 6)
      else findCardType rest

/-! ## The datetime regex `el (\d{2}/\d{2}/\d{4}) (\d{2}:\d{2})`
(main.py line 465) -/

/-- The fixed-shape datetime pattern anchored at the start of `l`; returns
(group 1, group 2). -/
def dtAt (l : List Char) : Option (List Char × List Char) :=
  match l with
  | 'e' :: 'l' :: ' ' :: d1 :: d2 :: '/' :: d3 :: d4 :: '/' ::
      y1 :: y2 :: y3 :: y4 :: ' ' :: h1 :: h2 :: ':' :: m1 :: m2 :: _ =>
      if [d1, d2, d3, d4, y1, y2, y3, y4, h1, h2, m1, m2].all Char.isDigit then
        some ([d1, d2, '/', d3, d4, '/', y1, y2, y3, y4], [h1, h2, ':', m1, m2])
      else none
  | _ => none

/-- `re.search` with the datetime pattern: leftmost position at which the
fixed-shape pattern matches. -/
def findDatetime : List Char → Option (List Char × List Char)
  | [] => none
  | c :: rest =>
      match dtAt (c :: rest) with
      | some r => some r
      | none => findDatetime rest

/-! ## The parsed-transaction record (the dict of main.py lines 419-424
/ the `TransactionParsed` pydantic model) -/

structure TransactionParsed where
  amount : Int
  card_type : Option String
  merchant : Option String
  datetime : Option String
  deriving Repr, DecidableEq

/-! ## `parse_banco_chile_email` (main.py lines 396-471) -/

/-- Lines 426-434: amount extraction with the `try/except ValueError`
folded into the `Except.error` case. -/
def amountOf (chars : List Char) : Int :=
  match findAmountRun chars with
  | none => 0
  | some run =>
      match pyFloat (run.filter fun c => !(c = '.' || c = ',')) with
      | Except.ok v => v
      | Except.error _ => 0

/-- Lines 426-434 with the exception left explicit: only a `ValueError` is
caught by the `except ValueError` handler; any other exception would
propagate. -/
def amountOfE (chars : List Char) : Except String Int :=
  match findAmountRun chars with
  | none => Except.ok 0
  | some run =>
      match pyFloat (run.filter fun c => !(c = '.' || c = ',')) with
      | Except.ok v => Except.ok v
      | Except.error e => if e = "ValueError" then Except.ok 0 else Except.error e

/-- Lines 436-462: transaction-type classification (ordered `if/elif`
chain) and merchant extraction, then the `Tarjeta de (Crédito|Débito)`
fallback when no rule set a card type. -/
def classify (chars : List Char) : Option String × Option String :=
  let lower := chars.map pyLower
  let first :=
    if hasSub lower "giro".data || hasSub lower "cajero".data then
      (some "Giro", some "Cajero Automático")
    else if hasSub lower "cargo a cuenta".data then
      (some "Débito", (findMerchant chars).map fun m => String.mk (pyStrip m))
    else if hasSub lower "tarjeta de crédito".data then
      (some "Crédito", (findMerchant chars).map fun m => String.mk (pyStrip m))
    else (none, none)
  match first with
  | (some ct, m) => (some ct, m)
  | (none, m) => ((findCardType chars).map fun cap => String.mk (pyCapitalize cap), m)

/-- Lines 464-469: `f"{date_str} {time_str}"` when the datetime pattern is
found. -/
def datetimeOf (chars : List Char) : Option String :=
  (findDatetime chars).map fun p => String.mk (p.1 ++ ' ' :: p.2)

/-- `parse_banco_chile_email(body)` (main.py lines 396-471). -/
def parse_banco_chile_email (body : String) : TransactionParsed :=
  let chars := body.data
  let cm := classify chars
  { amount := amountOf chars
    card_type := cm.1
    merchant := cm.2
    datetime := datetimeOf chars }

/-- `parse_banco_chile_email` with exception propagation kept explicit: the
only operation in its body that can raise is `float(...)`, and the
`except ValueError` handler is the `if e = "ValueError"` branch of
`amountOfE`. -/
def parse_banco_chile_emailE (body : String) : Except String TransactionParsed :=
  let chars := body.data
  match amountOfE chars with
  | Except.error e => Except.error e
  | Except.ok amt =>
      let cm := classify chars
      Except.ok
        { amount := amt
          card_type := cm.1
          merchant := cm.2
          datetime := datetimeOf chars }

/-! ## Orchestrator data model (main.py lines 98-127, 240-351) -/

/-- The `EmailRequest` pydantic model. -/
structure EmailRequest where
  subject : String
  body : String
  date : String
  deriving Repr, DecidableEq

/-- The `ParseResponse` pydantic model. -/
structure ParseResponse where
  status : String
  transaction : Option TransactionParsed
  message : Option String
  deriving Repr, DecidableEq

/-- A FastAPI `HTTPException` raised by the orchestrator. -/
structure HTTPExceptionModel where
  status_code : Nat
  detail : String
  deriving Repr, DecidableEq

/-- A cell written to the sheet: `row_data` holds four strings and the
numeric amount. -/
inductive Cell where
  | str (s : String)
  | num (n : Int)
  deriving Repr, DecidableEq

/-- One invocation of `write_to_sheet(spreadsheet_id, range_name, values)`. -/
structure AppendCall where
  spreadsheet_id : String
  range_name : String
  values : List (List Cell)
  deriving Repr, DecidableEq

/-- What the single `write_to_sheet` call would do if made: return the API
result (from which the source reads `updates.updatedRange`, possibly
absent) or raise an exception with the given message. -/
inductive SheetOutcome where
  | ok (updatedRange : Option String)
  | raise (msg : String)
  deriving Repr, DecidableEq

/-- The environment variables the orchestrator reads. -/
structure Env where
  spreadsheet_id : Option String
  sheet_name : Option String
  deriving Repr, DecidableEq

/-- Python truthiness of `os.environ.get(...)`: `None` and the empty
string are falsy. -/
def pyTruthy : Option String → Bool
  | none => false
  | some s => !s.isEmpty

/-- Lines 291-310: split `transaction.datetime` on a space into
`date_str` / `time_str` and build `row_data`
`[date, time, merchant, card_type, amount]` (absent parts become `''`). -/
def rowData (t : TransactionParsed) : List Cell :=
  let dt : Option String × Option String :=
    match t.datetime with
    | none => (none, none)
    | some s =>
        match s.splitOn " " with
        | [d, tm] => (some d, some tm)
        | _ => (none, none)
  [Cell.str (dt.1.getD ""), Cell.str (dt.2.getD ""),
   Cell.str (t.merchant.getD ""), Cell.str (t.card_type.getD ""),
   Cell.num t.amount]

/-- `parse_email` (main.py lines 240-351): extract, branch on the amount
sentinel, best-effort persistence, response composition.  Returns the
response (or a raised `HTTPException`) together with the list of
`write_to_sheet` calls actually issued. -/
def parse_email (env : Env) (sheetOutcome : SheetOutcome) (email : EmailRequest) :
    Except HTTPExceptionModel ParseResponse × List AppendCall :=
  let parsed := parse_banco_chile_email email.body
  if parsed.amount = 0 then
    (Except.ok
      { status := "error", transaction := none,
        message := some "No se pudo extraer información de transacción del correo" }, [])
  else
    let transaction := parsed
    if pyTruthy env.spreadsheet_id then
      let spreadsheetId := env.spreadsheet_id.getD ""
      let sheet_name := env.sheet_name.getD "Sheet1"
      let call : AppendCall :=
        { spreadsheet_id := spreadsheetId
          range_name := sheet_name ++ "!A:E"
          values := [rowData transaction] }
      match sheetOutcome with
      | SheetOutcome.ok updatedRange =>
          let sheets_details := "Agregada fila en rango: " ++ updatedRange.getD "N/A"
          (Except.ok
            { status := "success", transaction := some transaction,
              message := some ("✅ Guardado en Google Sheets: " ++ sheets_details) }, [call])
      | SheetOutcome.raise msg =>
          (Except.ok
            { status := "success", transaction := some transaction,
              message := some ("⚠️ No guardado en Sheets: " ++ msg) }, [call])
    else
      let sheets_error := "SPREADSHEET_ID no configurado en variables de entorno"
      (Except.ok
        { status := "success", transaction := some transaction,
          message := some ("⚠️ No guardado en Sheets: " ++ sheets_error) }, [])

/-! ## `get_expenses` (main.py lines 354-389) -/

/-- `read_from_sheet` on the range `A{startRow}:D{endRow}`: the external
service returns the populated rows of the sheet (`rows[0]` is sheet row 1)
lying inside the range, each restricted to columns A-D. -/
def read_from_sheet (rows : List (List Cell)) (startRow endRow : Nat) : List (List Cell) :=
  (((rows.drop (startRow - 1)).take (endRow + 1 - startRow)).map fun r => r.take 4)

/-- `get_expenses(limit, offset)`: reads `Gastos!A{2+offset}:D{2+offset+limit}`
and returns the count and the rows. -/
def get_expenses (rows : List (List Cell)) (limit offset : Nat) : Nat × List (List Cell) :=
  let start_row := 2 + offset
  let end_row := start_row + limit
  let expenses := read_from_sheet rows start_row end_row
  (expenses.length, expenses)

/-! ## Helper lemmas -/

theorem toNat_ofNat_lt {n : Nat} (h : n < 55296) : (Char.ofNat n).toNat = n := by
  have hv : Nat.isValidChar n := Or.inl h
  simp [Char.ofNat, hv, Char.ofNatAux, Char.toNat, UInt32.toNat, UInt32.ofNatCore]

/-- Lowercasing then uppercasing agrees with uppercasing directly: the two
case-shift blocks of `pyLower`/`pyUpper` are inverse on their ranges. -/
theorem pyUpper_pyLower (c : Char) : pyUpper (pyLower c) = pyUpper c := by
  unfold pyLower pyUpper
  by_cases h1 : 65 ≤ c.toNat ∧ c.toNat ≤ 90
  · have ht : (Char.ofNat (c.toNat + 32)).toNat = c.toNat + 32 := toNat_ofNat_lt (by omega)
    rw [if_pos h1, ht, if_pos (by omega : 97 ≤ c.toNat + 32 ∧ c.toNat + 32 ≤ 122)]
    rw [if_neg (by omega : ¬(97 ≤ c.toNat ∧ c.toNat ≤ 122)),
        if_neg (by omega : ¬(224 ≤ c.toNat ∧ c.toNat ≤ 254 ∧ c.toNat ≠ 247))]
    have h32 : c.toNat + 32 - 32 = c.toNat := by omega
    rw [h32, Char.ofNat_toNat]
  · rw [if_neg h1]
    by_cases h2 : 192 ≤ c.toNat ∧ c.toNat ≤ 222 ∧ c.toNat ≠ 215
    · have ht : (Char.ofNat (c.toNat + 32)).toNat = c.toNat + 32 := toNat_ofNat_lt (by omega)
      rw [if_pos h2, ht, if_neg (by omega : ¬(97 ≤ c.toNat + 32 ∧ c.toNat + 32 ≤ 122)),
          if_pos (by omega : 224 ≤ c.toNat + 32 ∧ c.toNat + 32 ≤ 254 ∧ c.toNat + 32 ≠ 247)]
      rw [if_neg (by omega : ¬(97 ≤ c.toNat ∧ c.toNat ≤ 122)),
          if_neg (by omega : ¬(224 ≤ c.toNat ∧ c.toNat ≤ 254 ∧ c.toNat ≠ 247))]
      have h32 : c.toNat + 32 - 32 = c.toNat := by omega
      rw [h32, Char.ofNat_toNat]
    · rw [if_neg h2]

theorem eq_append_of_startsWith :
    ∀ (l p : List Char), startsWith l p = true → ∃ t, l = p ++ t
  | l, [], _ => ⟨l, rfl⟩
  | [], _ :: _, h => by simp [startsWith] at h
  | c :: t, p :: q, h => by
      rw [startsWith, Bool.and_eq_true, decide_eq_true_eq] at h
      obtain ⟨rfl, h2⟩ := h
      obtain ⟨tl, rfl⟩ := eq_append_of_startsWith t q h2
      exact ⟨tl, rfl⟩

/-- `pyFloat` can only raise a `ValueError`. -/
theorem pyFloat_error {l : List Char} {e : String}
    (h : pyFloat l = Except.error e) : e = "ValueError" := by
  unfold pyFloat at h
  split at h
  · exact (Except.error.injEq _ _).mp h.symm
  · exact absurd h (by simp)

/-- A successfully parsed amount is non-negative. -/
theorem pyFloat_ok_nonneg {l : List Char} {v : Int}
    (h : pyFloat l = Except.ok v) : 0 ≤ v := by
  unfold pyFloat at h
  split at h
  · exact absurd h (by simp)
  · rw [(Except.ok.injEq _ _).mp h.symm]
    exact Int.natCast_nonneg _

/-- The exception-explicit amount extraction never raises and agrees with
the total one: the only possible exception is the `ValueError` that the
source's `except ValueError` handler turns into `amount = 0`. -/
theorem amountOfE_eq_ok (l : List Char) : amountOfE l = Except.ok (amountOf l) := by
  cases hfa : findAmountRun l with
  | none => simp only [amountOfE, amountOf, hfa]
  | some run =>
      cases hpf : pyFloat (run.filter fun c => !(c = '.' || c = ',')) with
      | ok v => simp only [amountOfE, amountOf, hfa, hpf]
      | error e =>
          simp only [amountOfE, amountOf, hfa, hpf, pyFloat_error hpf]
          rfl

/-- The extracted amount is never negative. -/
theorem amountOf_nonneg (l : List Char) : 0 ≤ amountOf l := by
  cases hfa : findAmountRun l with
  | none => simp [amountOf, hfa]
  | some run =>
      cases hpf : pyFloat (run.filter fun c => !(c = '.' || c = ',')) with
      | ok v =>
          have hv := pyFloat_ok_nonneg hpf
          simp only [amountOf, hfa, hpf]
          exact hv
      | error e =>
          simp only [amountOf, hfa, hpf]
          exact le_refl 0

/-- The scanner `findAmountRun` returns the token of the leftmost
currency-amount match position. -/
theorem findAmountRun_of_first :
    ∀ (l : List Char) (i : Nat), currencyTokenAt l i = true →
      (∀ j, j < i → currencyTokenAt l j = false) →
      findAmountRun l = some ((l.drop (i + 1)).takeWhile isAmtChar)
  | [], i, hi, _ => by simp [currencyTokenAt] at hi
  | c :: t, 0, hi, _ => by
      have hi' : (decide (c = '$') && !(t.takeWhile isAmtChar).isEmpty) = true := hi
      rw [findAmountRun, if_pos hi']
      rfl
  | c :: t, i + 1, hi, hmin => by
      have h0 : (decide (c = '$') && !(t.takeWhile isAmtChar).isEmpty) = false :=
        hmin 0 (Nat.succ_pos i)
      have hit : currencyTokenAt t i = true := hi
      have hmin' : ∀ j, j < i → currencyTokenAt t j = false :=
        fun j hj => hmin (j + 1) (Nat.succ_lt_succ hj)
      rw [findAmountRun, if_neg (by simp [h0])]
      exact findAmountRun_of_first t i hit hmin'

/-- A capture returned by the fallback card-type search case-folds to
exactly "crédito" or "débito". -/
theorem findCardType_spec :
    ∀ (l cap : List Char), findCardType l = some cap →
      cap.map reFold = "crédito".data ∨ cap.map reFold = "débito".data
  | [], cap, h => by simp [findCardType] at h
  | c :: rest, cap, h => by
      rw [findCardType] at h
      by_cases h1 : startsWith ((c :: rest).map reFold) "tarjeta de crédito".data = true
      · left
        rw [if_pos h1, Option.some.injEq] at h
        obtain ⟨tl, htl⟩ := eq_append_of_startsWith _ _ h1
        rw [← h, List.map_take, List.map_drop, htl,
            List.drop_append_of_le_length (by decide)]
        rfl
      · rw [if_neg h1] at h
        by_cases h2 : startsWith ((c :: rest).map reFold) "tarjeta de débito".data = true
        · right
          rw [if_pos h2, Option.some.injEq] at h
          obtain ⟨tl, htl⟩ := eq_append_of_startsWith _ _ h2
          rw [← h, List.map_take, List.map_drop, htl,
              List.drop_append_of_le_length (by decide)]
          rfl
        · rw [if_neg h2] at h
          exact findCardType_spec rest cap h

/-- Away from the two dotted/dotless i characters, the IGNORECASE fold is
plain lowercasing. -/
theorem reFold_eq_pyLower {c : Char} (h1 : c ≠ 'ı') (h2 : c ≠ 'İ') :
    reFold c = pyLower c := by
  unfold reFold
  simp [h1, h2]

theorem map_reFold_eq_map_pyLower :
    ∀ {l : List Char}, 'ı' ∉ l → 'İ' ∉ l → l.map reFold = l.map pyLower
  | [], _, _ => rfl
  | c :: t, h1, h2 => by
      simp only [List.mem_cons, not_or] at h1 h2
      rw [List.map_cons, List.map_cons,
          reFold_eq_pyLower (fun hc => h1.1 hc.symm) (fun hc => h2.1 hc.symm),
          map_reFold_eq_map_pyLower h1.2 h2.2]

/-- Away from dotted `İ`, `str.lower` is the character-wise map. -/
theorem pyLowerStr_eq_map :
    ∀ {l : List Char}, 'İ' ∉ l → pyLowerStr l = l.map pyLower
  | [], _ => rfl
  | c :: t, h => by
      simp only [List.mem_cons, not_or] at h
      rw [pyLowerStr, pyLowerMulti, if_neg (fun hc => h.1 hc.symm),
          List.map_cons, pyLowerStr_eq_map h.2]
      rfl

/-- A fallback capture free of `ı`/`İ` that folds to "crédito"
capitalizes to exactly "Crédito". -/
theorem pyCapitalize_credito {cap : List Char}
    (hfold : cap.map reFold = "crédito".data)
    (hni : 'ı' ∉ cap) (hnI : 'İ' ∉ cap) :
    pyCapitalize cap = "Crédito".data := by
  have hlow : cap.map pyLower = "crédito".data := by
    rw [← map_reFold_eq_map_pyLower hni hnI]
    exact hfold
  clear hfold hni
  match cap, hlow, hnI with
  | c0 :: r, hlow, hnI => ?_
  rw [show ("crédito".data : List Char) =
        'c' :: 'r' :: 'é' :: 'd' :: 'i' :: 't' :: 'o' :: [] from rfl] at hlow
  rw [List.map_cons, List.cons.injEq] at hlow
  obtain ⟨hc0, hr⟩ := hlow
  have hup : pyUpper c0 = 'C' := by rw [← pyUpper_pyLower c0, hc0]; decide
  have hIr : 'İ' ∉ r := fun hm => hnI (List.mem_cons_of_mem _ hm)
  rw [pyCapitalize, pyLowerStr_eq_map hIr, hr, hup]

/-- A fallback capture free of `ı`/`İ` that folds to "débito" capitalizes
to exactly "Débito". -/
theorem pyCapitalize_debito {cap : List Char}
    (hfold : cap.map reFold = "débito".data)
    (hni : 'ı' ∉ cap) (hnI : 'İ' ∉ cap) :
    pyCapitalize cap = "Débito".data := by
  have hlow : cap.map pyLower = "débito".data := by
    rw [← map_reFold_eq_map_pyLower hni hnI]
    exact hfold
  clear hfold hni
  match cap, hlow, hnI with
  | c0 :: r, hlow, hnI => ?_
  rw [show ("débito".data : List Char) =
        'd' :: 'é' :: 'b' :: 'i' :: 't' :: 'o' :: [] from rfl] at hlow
  rw [List.map_cons, List.cons.injEq] at hlow
  obtain ⟨hc0, hr⟩ := hlow
  have hup : pyUpper c0 = 'D' := by rw [← pyUpper_pyLower c0, hc0]; decide
  have hIr : 'İ' ∉ r := fun hm => hnI (List.mem_cons_of_mem _ hm)
  rw [pyCapitalize, pyLowerStr_eq_map hIr, hr, hup]

/-! ## The claims -/

/-- C1: for every request whose body yields a non-zero extracted amount,
if the persistence collaborator raises during the append attempt, the
orchestrator catches it and still returns `status = "success"` with the
extracted transaction, the message carrying the failure reason; the
exception never escalates to a request-level error. -/
theorem claim_C1_persistence_failure_isolated (env : Env) (email : EmailRequest) (e : String)
    (hcfg : pyTruthy env.spreadsheet_id = true)
    (hamt : (parse_banco_chile_email email.body).amount ≠ 0) :
    (parse_email env (SheetOutcome.raise e) email).1 =
      Except.ok
        { status := "success",
          transaction := some (parse_banco_chile_email email.body),
          message := some ("⚠️ No guardado en Sheets: " ++ e) } := by
  simp [parse_email, hamt, hcfg]

theorem claim_C1_witness :
    pyTruthy (some "sheet-id") = true ∧
    (parse_banco_chile_email "compra por $950 con giro").amount ≠ 0 ∧
    (parse_email ⟨some "sheet-id", none⟩ (SheetOutcome.raise "HttpError 403")
        ⟨"aviso", "compra por $950 con giro", "2026-02-06"⟩).1 =
      Except.ok
        { status := "success",
          transaction := some (parse_banco_chile_email "compra por $950 con giro"),
          message := some ("⚠️ No guardado en Sheets: " ++ "HttpError 403") } :=
  ⟨rfl, by decide,
    claim_C1_persistence_failure_isolated ⟨some "sheet-id", none⟩
      ⟨"aviso", "compra por $950 con giro", "2026-02-06"⟩ "HttpError 403" rfl (by decide)⟩

/-- C2: for every request whose body yields amount 0, the orchestrator
returns `status = "error"` with no transaction and the fixed message, and
no append call is ever issued. -/
theorem claim_C2_zero_amount_terminal (env : Env) (outcome : SheetOutcome)
    (email : EmailRequest)
    (h : (parse_banco_chile_email email.body).amount = 0) :
    parse_email env outcome email =
      (Except.ok
        { status := "error", transaction := none,
          message := some "No se pudo extraer información de transacción del correo" },
       []) := by
  simp [parse_email, h]

theorem claim_C2_witness :
    (parse_banco_chile_email "hola mundo").amount = 0 ∧
    parse_email ⟨some "sheet-id", none⟩ (SheetOutcome.ok (some "Sheet1!A7:E7"))
        ⟨"asunto", "hola mundo", "2026-02-06"⟩ =
      (Except.ok
        { status := "error", transaction := none,
          message := some "No se pudo extraer información de transacción del correo" },
       []) :=
  ⟨by decide,
    claim_C2_zero_amount_terminal ⟨some "sheet-id", none⟩ (SheetOutcome.ok (some "Sheet1!A7:E7"))
      ⟨"asunto", "hola mundo", "2026-02-06"⟩ (by decide)⟩

/-- C3 counterexample: the body `"giro"` contains no currency-amount
pattern, yet `extract` does not leave the other fields absent — the
classification still runs and populates `card_type` and `merchant`. -/
theorem claim_C3_counterexample :
    findAmountRun "giro".data = none ∧
    parse_banco_chile_email "giro" =
      { amount := 0, card_type := some "Giro",
        merchant := some "Cajero Automático", datetime := none } := by
  decide

/-- C3 (amended): for every body with no currency-amount match the
extracted amount is 0; the remaining fields are still extracted
independently and may be populated. -/
theorem claim_C3_amended_amount_zero (body : String)
    (h : findAmountRun body.data = none) :
    (parse_banco_chile_email body).amount = 0 := by
  simp [parse_banco_chile_email, amountOf, h]

theorem claim_C3_witness :
    findAmountRun "sin monto alguno".data = none ∧
    (parse_banco_chile_email "sin monto alguno").amount = 0 :=
  ⟨by decide, claim_C3_amended_amount_zero "sin monto alguno" (by decide)⟩

/-- C4: the credit-card example body extracts amount 122000, card type
"Crédito", merchant "SII 11001SANTIAGOCL" and datetime
"05/02/2026 16:23". -/
theorem claim_C4_credit_example :
    parse_banco_chile_email
        "...compra por $122.000 con Tarjeta de Crédito 3670 en SII 11001SANTIAGOCL el 05/02/2026 16:23." =
      { amount := 122000, card_type := some "Crédito",
        merchant := some "SII 11001SANTIAGOCL",
        datetime := some "05/02/2026 16:23" } := by
  decide

/-- C5: every body containing "giro" or "cajero" (case-insensitively) is
classified as a withdrawal with the fixed merchant "Cajero Automático",
regardless of any other content (in particular this rule precedes the
"cargo a cuenta" and "tarjeta de crédito" rules). -/
theorem claim_C5_withdrawal_rule (body : String)
    (h : hasSub (body.data.map pyLower) "giro".data = true ∨
         hasSub (body.data.map pyLower) "cajero".data = true) :
    (parse_banco_chile_email body).card_type = some "Giro" ∧
    (parse_banco_chile_email body).merchant = some "Cajero Automático" := by
  have hb : (hasSub (body.data.map pyLower) "giro".data ||
             hasSub (body.data.map pyLower) "cajero".data) = true := by
    rcases h with h | h <;> simp [h]
  constructor <;> simp [parse_banco_chile_email, classify, hb]

theorem claim_C5_witness :
    (hasSub ("retiro con CAJERO y tarjeta de crédito".data.map pyLower) "giro".data = true ∨
     hasSub ("retiro con CAJERO y tarjeta de crédito".data.map pyLower) "cajero".data = true) ∧
    (parse_banco_chile_email "retiro con CAJERO y tarjeta de crédito").card_type = some "Giro" ∧
    (parse_banco_chile_email "retiro con CAJERO y tarjeta de crédito").merchant =
      some "Cajero Automático" :=
  ⟨Or.inr (by decide),
   claim_C5_withdrawal_rule "retiro con CAJERO y tarjeta de crédito" (Or.inr (by decide))⟩

/-- C6: the extracted amount comes from the leftmost currency-amount match
(`$` followed by digits/dots/commas) by stripping the symbol and the
separators and parsing the remainder; later matches in the same body are
ignored. -/
theorem claim_C6_first_match_amount (body : String) (i : Nat)
    (hi : currencyTokenAt body.data i = true)
    (hmin : ∀ j, j < i → currencyTokenAt body.data j = false) :
    (parse_banco_chile_email body).amount = specAmountAt body.data i := by
  have hfa := findAmountRun_of_first body.data i hi hmin
  simp only [parse_banco_chile_email, amountOf, specAmountAt, hfa]

theorem claim_C6_witness :
    currencyTokenAt "x $12. y $34".data 2 = true ∧
    (∀ j, j < 2 → currencyTokenAt "x $12. y $34".data j = false) ∧
    (parse_banco_chile_email "x $12. y $34").amount = specAmountAt "x $12. y $34".data 2 ∧
    specAmountAt "x $12. y $34".data 2 = 12 :=
  ⟨by decide, by decide,
   claim_C6_first_match_amount "x $12. y $34" 2 (by decide) (by decide), by decide⟩

/-- C7: the parser is total — with the `float` exception made explicit it
always returns `ok`, agreeing with the pure function; any unparsable
input is encoded as `amount = 0`, never as an exception. -/
theorem claim_C7_never_raises (body : String) :
    parse_banco_chile_emailE body = Except.ok (parse_banco_chile_email body) := by
  simp only [parse_banco_chile_emailE, parse_banco_chile_email, amountOfE_eq_ok]

/-- C8: with a non-zero amount and no configured SPREADSHEET_ID, the
orchestrator issues no append call, still returns success with the
transaction, and the message explains the missing configuration with the
same "not saved" shape as a persistence failure. -/
theorem claim_C8_missing_configuration (env : Env) (outcome : SheetOutcome)
    (email : EmailRequest)
    (hcfg : pyTruthy env.spreadsheet_id = false)
    (hamt : (parse_banco_chile_email email.body).amount ≠ 0) :
    parse_email env outcome email =
      (Except.ok
        { status := "success",
          transaction := some (parse_banco_chile_email email.body),
          message := some ("⚠️ No guardado en Sheets: " ++
            "SPREADSHEET_ID no configurado en variables de entorno") },
       []) := by
  simp [parse_email, hamt, hcfg]

theorem claim_C8_witness :
    pyTruthy (none : Option String) = false ∧
    (parse_banco_chile_email "compra por $950 con giro").amount ≠ 0 ∧
    parse_email ⟨none, none⟩ (SheetOutcome.ok none)
        ⟨"aviso", "compra por $950 con giro", "2026-02-06"⟩ =
      (Except.ok
        { status := "success",
          transaction := some (parse_banco_chile_email "compra por $950 con giro"),
          message := some ("⚠️ No guardado en Sheets: " ++
            "SPREADSHEET_ID no configurado en variables de entorno") },
       []) :=
  ⟨rfl, by decide,
    claim_C8_missing_configuration ⟨none, none⟩ (SheetOutcome.ok none)
      ⟨"aviso", "compra por $950 con giro", "2026-02-06"⟩ rfl (by decide)⟩

/-- C9 (code bug): the read path computes the range `A{2+offset}:D{2+offset+limit}`,
which spans `limit + 1` rows, so with `limit = 1`, `offset = 0` against a
sheet whose rows 2 and 3 are populated it returns 2 rows — more than
`limit` — contradicting the documented "máximo" semantics. -/
theorem claim_C9_limit_off_by_one :
    get_expenses [[Cell.str "Fecha"], [Cell.str "gasto1"], [Cell.str "gasto2"]] 1 0 =
      (2, [[Cell.str "gasto1"], [Cell.str "gasto2"]]) ∧ 1 < 2 := by
  decide

/-- C10 counterexample: under `re.IGNORECASE` dotless `ı` (U+0131)
matches the pattern letter `i`, so the body "Tarjeta de Crédıto" misses
the plain `tarjeta de crédito` trigger, reaches the fallback regex, and
yields the fifth `card_type` value "Crédıto" — refuting the claimed
exactly-four-values invariant. -/
theorem claim_C10_counterexample :
    (parse_banco_chile_email "Tarjeta de Crédıto").card_type = some "Crédıto" ∧
    ¬((parse_banco_chile_email "Tarjeta de Crédıto").card_type = none ∨
      (parse_banco_chile_email "Tarjeta de Crédıto").card_type = some "Giro" ∨
      (parse_banco_chile_email "Tarjeta de Crédıto").card_type = some "Débito" ∨
      (parse_banco_chile_email "Tarjeta de Crédıto").card_type = some "Crédito") := by
  decide

/-- C10 (amended): for every body the extracted `card_type` is absent,
"Giro", "Débito" or "Crédito", except when the fallback's IGNORECASE
match contains dotless `ı` (U+0131) or dotted `İ` (U+0130) standing for
`i`, in which case `card_type` is the capitalization of that matched
text (e.g. "Crédıto"); the amount is always non-negative. -/
theorem claim_C10_card_type_invariant (body : String) :
    ((parse_banco_chile_email body).card_type = none ∨
     (parse_banco_chile_email body).card_type = some "Giro" ∨
     (parse_banco_chile_email body).card_type = some "Débito" ∨
     (parse_banco_chile_email body).card_type = some "Crédito" ∨
     (∃ cap, findCardType body.data = some cap ∧ ('ı' ∈ cap ∨ 'İ' ∈ cap) ∧
        (parse_banco_chile_email body).card_type = some (String.mk (pyCapitalize cap)))) ∧
    0 ≤ (parse_banco_chile_email body).amount := by
  refine ⟨?_, amountOf_nonneg body.data⟩
  simp only [parse_banco_chile_email, classify]
  by_cases h1 : (hasSub (body.data.map pyLower) "giro".data ||
                 hasSub (body.data.map pyLower) "cajero".data) = true
  · simp [h1]
  · simp only [Bool.not_eq_true] at h1
    by_cases h2 : hasSub (body.data.map pyLower) "cargo a cuenta".data = true
    · simp [h1, h2]
    · simp only [Bool.not_eq_true] at h2
      by_cases h3 : hasSub (body.data.map pyLower) "tarjeta de crédito".data = true
      · simp [h1, h2, h3]
      · simp only [Bool.not_eq_true] at h3
        cases hfc : findCardType body.data with
        | none => simp [h1, h2, h3, hfc]
        | some cap =>
            by_cases hmem : 'ı' ∈ cap ∨ 'İ' ∈ cap
            · simp only [h1, h2, h3, hfc]
              right; right; right; right
              exact ⟨cap, rfl, hmem, by simp⟩
            · obtain ⟨hni, hnI⟩ := not_or.mp hmem
              rcases findCardType_spec body.data cap hfc with hcs | hcs
              · simp only [h1, h2, h3, hfc]
                right; right; right; left
                simp [pyCapitalize_credito hcs hni hnI]
              · simp only [h1, h2, h3, hfc]
                right; right; left
                simp [pyCapitalize_debito hcs hni hnI]

end GG
